import Mathlib

/-!
Shallow embedding of the Bugboy demo application (Next.js API handlers over an
in-memory mock store) and proofs about its specified behaviour.

Conventions of the embedding:
- JavaScript `Date` values are modelled as natural-number codes (`DateT`);
  handlers only ever compare dates via `getTime`, which the encoding preserves
  for the fixed seed values used here.
- JavaScript `undefined`/`null` are modelled with `Option`; a value of type
  `Option Bool` stands for `undefined | boolean`.
- A thrown runtime exception is modelled with `Except String`; the `String` is
  the error message.
- Stateful handlers take the relevant store as an argument and return the new
  store alongside the response (explicit state passing).
-/

/-- JavaScript Date, encoded as a natural number (codes preserve day order). -/
abbrev DateT : Nat := 0

/-- Date encoding: year, month and day packed so that calendar order is
numeric order (the handlers only compare dates). -/
def mkDate (y m d : Nat) : Nat := y * 10000 + m * 100 + d

/-- Truthiness of a JavaScript string: falsy exactly when empty. -/
def truthyStr (s : String) : Bool := s ≠ ""

/-- Truthiness of a JavaScript value that is either undefined or a boolean
(undefined is falsy). -/
def truthyOptBool : Option Bool → Bool
  | none => false
  | some b => b

/-- Digits at the front of a character list. -/
def leadingDigits (cs : List Char) : List Char := cs.takeWhile Char.isDigit

/-- Numeric value of a digit list, most significant first. -/
def digitsToNat (ds : List Char) : Nat :=
  ds.foldl (fun n c => n * 10 + (c.toNat - 48)) 0

/-- JavaScript parseInt with radix 10: skip leading whitespace, take an
optional sign and then the maximal run of leading digits; the result is NaN
(modelled as `none`) when that run is empty. -/
def parseIntJS (s : String) : Option Int :=
  let cs := s.data.dropWhile (fun c => c = ' ' ∨ c = '\t' ∨ c = '\n' ∨ c = '\r')
  match cs with
  | '-' :: rest =>
    let ds := leadingDigits rest
    if ds.isEmpty then none else some (-(digitsToNat ds : Int))
  | '+' :: rest =>
    let ds := leadingDigits rest
    if ds.isEmpty then none else some (digitsToNat ds : Int)
  | rest =>
    let ds := leadingDigits rest
    if ds.isEmpty then none else some (digitsToNat ds : Int)

/-- Checks whether a pattern occurs as a substring, via splitOn: the split has
at least two pieces exactly when the pattern occurs. -/
def mentions (s pat : String) : Bool := 2 ≤ (s.splitOn pat).length

-- ### Data model from src/lib/db.ts

/-- User profile record (src/lib/db.ts, interface UserProfile). -/
structure UserProfile where
  avatarUrl : String
  department : String
deriving DecidableEq, Repr

/-- User roles in src/lib/db.ts are the string union admin | user | guest. -/
inductive Role where
  | admin
  | user
  | guest
deriving DecidableEq, Repr

/-- User record (src/lib/db.ts, interface User); the seed row for Alex Rivera
stores null as its profile, hence the Option. -/
structure User where
  id : String
  email : String
  name : String
  role : Role
  profile : Option UserProfile
  createdAt : Nat
  lastLoginAt : Option Nat
deriving DecidableEq, Repr

/-- First seeded user (Sarah Chen). -/
def user1 : User :=
  { id := "usr_1a2b3c"
  , email := "sarah.chen@company.com"
  , name := "Sarah Chen"
  , role := .admin
  , profile := some { avatarUrl := "https://i.pravatar.cc/150?u=sarah", department := "Engineering" }
  , createdAt := mkDate 2023 1 15
  , lastLoginAt := some (mkDate 2024 1 20) }

/-- Second seeded user (Marcus Johnson). -/
def user2 : User :=
  { id := "usr_4d5e6f"
  , email := "marcus.johnson@company.com"
  , name := "Marcus Johnson"
  , role := .user
  , profile := some { avatarUrl := "https://i.pravatar.cc/150?u=marcus", department := "Marketing" }
  , createdAt := mkDate 2023 3 22
  , lastLoginAt := some (mkDate 2024 1 19) }

/-- Third seeded user (Alex Rivera, SSO user with a null profile). -/
def user3 : User :=
  { id := "usr_7g8h9i"
  , email := "alex.rivera@company.com"
  , name := "Alex Rivera"
  , role := .user
  , profile := none
  , createdAt := mkDate 2023 6 10
  , lastLoginAt := none }

/-- Seeded users table from src/lib/db.ts. -/
def usersTable : List User := [user1, user2, user3]

-- ### Query option records (Partial<User> etc.)

/-- Partial User filter: each present field must match exactly, mirroring
the Object.entries(where).every equality filter in src/lib/db.ts.
Object-free fields compare by value; profile and date fields are included
because Partial of User admits them. -/
structure UserWhere where
  id : Option String := none
  email : Option String := none
  name : Option String := none
  role : Option Role := none
  profile : Option (Option UserProfile) := none
  createdAt : Option Nat := none
  lastLoginAt : Option (Option Nat) := none
deriving DecidableEq, Repr

/-- Does a user satisfy every field that the partial filter specifies? -/
def userMatches (w : UserWhere) (u : User) : Bool :=
  (match w.id with | none => true | some v => u.id = v) &&
  (match w.email with | none => true | some v => u.email = v) &&
  (match w.name with | none => true | some v => u.name = v) &&
  (match w.role with | none => true | some v => u.role = v) &&
  (match w.profile with | none => true | some v => u.profile = v) &&
  (match w.createdAt with | none => true | some v => u.createdAt = v) &&
  (match w.lastLoginAt with | none => true | some v => u.lastLoginAt = v)

/-- Options object of db.users.findMany. -/
structure UsersFindManyOptions where
  whereQ : Option UserWhere := none
deriving DecidableEq, Repr

/-- Result of a simulated database call, as a JavaScript value: undefined,
null, a scalar, or an array. The handlers in the spec care about which of
these shapes a query can produce. -/
inductive DbResult (α : Type) where
  | undef
  | nullv
  | scalar (a : α)
  | arr (xs : List α)
deriving DecidableEq, Repr

/-- Is the result an array? -/
def DbResult.isArr {α : Type} : DbResult α → Bool
  | .arr _ => true
  | _ => false

/-- Embedding of db.users.findMany (src/lib/db.ts lines 199-209): with a
filter, returns the rows matching every given field; otherwise a copy of the
whole table. Both paths return arrays. -/
def db.users.findMany (options : Option UsersFindManyOptions) : DbResult User :=
  match options with
  | some o =>
    match o.whereQ with
    | some w => .arr (usersTable.filter (userMatches w))
    | none => .arr usersTable
  | none => .arr usersTable

/-- Embedding of db.users.findUnique (src/lib/db.ts lines 211-214): first
row whose id equals the requested id, or null (`none`). The function is
total: it never throws for a missing id. -/
def db.users.findUnique (id : String) : Option User :=
  usersTable.find? (fun u => u.id = id)

-- ### Products (src/lib/db.ts)

/-- Product category record. -/
structure Category where
  id : String
  name : String
deriving DecidableEq, Repr

/-- Product record (src/lib/db.ts, interface Product); the Prototype Sensor
Array row stores null as its category, hence the Option. Prices are exact
rationals. -/
structure Product where
  id : String
  sku : String
  name : String
  description : String
  price : ℚ
  inventory : Nat
  category : Option Category
  createdAt : Nat
deriving DecidableEq, Repr

/-- Seeded products table from src/lib/db.ts. -/
def productsTable : List Product :=
  [ { id := "prod_001", sku := "WDG-PRO-001", name := "Pro Widget"
    , description := "Professional-grade widget for enterprise use"
    , price := (29999 : ℚ) / 100, inventory := 150
    , category := some { id := "cat_widgets", name := "Widgets" }
    , createdAt := mkDate 2023 2 1 }
  , { id := "prod_002", sku := "WDG-STD-002", name := "Standard Widget"
    , description := "Reliable widget for everyday use"
    , price := (14999 : ℚ) / 100, inventory := 500
    , category := some { id := "cat_widgets", name := "Widgets" }
    , createdAt := mkDate 2023 3 15 }
  , { id := "prod_003", sku := "ACC-CBL-001", name := "Premium Cable Kit"
    , description := "High-speed cable kit with gold connectors"
    , price := (4999 : ℚ) / 100, inventory := 1000
    , category := some { id := "cat_accessories", name := "Accessories" }
    , createdAt := mkDate 2023 4 10 }
  , { id := "prod_004", sku := "MISC-PROTO-001", name := "Prototype Sensor Array"
    , description := "Experimental multi-spectrum sensor for R&D"
    , price := (89999 : ℚ) / 100, inventory := 12
    , category := none
    , createdAt := mkDate 2024 1 5 } ]

/-- Sort direction of an orderBy entry. -/
inductive SortDir where
  | asc
  | desc
deriving DecidableEq, Repr

/-- Stable insertion by an integer key: the new element goes after every
element with a key not larger than its own. -/
def insertByKey {α : Type} (key : α → Int) (x : α) : List α → List α
  | [] => [x]
  | y :: ys => if key x < key y then x :: y :: ys else y :: insertByKey key x ys

/-- Stable sort by an integer key (elements inserted left to right), matching
the stable Array.prototype.sort of the runtime. -/
def sortByKey {α : Type} (key : α → Int) (xs : List α) : List α :=
  xs.foldl (fun acc x => insertByKey key x acc) []

/-- Options object of db.products.findMany. The where and include fields are
accepted (as in the TypeScript signature) but the body of findMany never
reads them. -/
structure ProductsFindManyOptions where
  take : Option Nat := none
  skip : Option Nat := none
  cursor : Option String := none
  orderBy : Option (String × SortDir) := none
  includeQ : Option (List (String × Bool)) := none
  whereQ : Option (List (String × String)) := none
deriving DecidableEq, Repr

/-- Comparator key used by the products sort: the source comparator returns a
getTime difference when both field values are Date objects and 0 otherwise;
createdAt is the only Date field of Product, so any other field name leaves
the (stable) sort a no-op. -/
def productSort (orderBy : String × SortDir) (xs : List Product) : List Product :=
  if orderBy.1 = "createdAt" then
    match orderBy.2 with
    | .asc => sortByKey (fun p => (p.createdAt : Int)) xs
    | .desc => sortByKey (fun p => -(p.createdAt : Int)) xs
  else xs

/-- Embedding of db.products.findMany (src/lib/db.ts lines 218-264): copy the
table, optionally sort, slice from the cursor position when the cursor id is
found, then apply skip and take (each only when truthy, i.e. nonzero). Every
path returns an array. -/
def db.products.findMany (options : Option ProductsFindManyOptions) : DbResult Product :=
  match options with
  | none => .arr productsTable
  | some o =>
    let results := productsTable
    let results := match o.orderBy with
      | some ob => productSort ob results
      | none => results
    let results := match o.cursor with
      | some cid =>
        match results.findIdx? (fun p => p.id = cid) with
        | some i => results.drop i
        | none => results
      | none => results
    let results := match o.skip with
      | some n => if n ≠ 0 then results.drop n else results
      | none => results
    let results := match o.take with
      | some n => if n ≠ 0 then results.take n else results
      | none => results
    .arr results

-- ### Orders (src/lib/db.ts)

/-- Customer snapshot on an order. -/
structure OrderCustomer where
  name : String
  email : String
deriving DecidableEq, Repr

/-- Line item of an order. -/
structure OrderItem where
  productId : String
  name : String
  quantity : Nat
  price : ℚ
deriving DecidableEq, Repr

/-- Order status union. -/
inductive OrderStatus where
  | pending
  | processing
  | completed
  | cancelled
  | refunded
deriving DecidableEq, Repr

/-- Order record (src/lib/db.ts, interface Order). -/
structure Order where
  id : String
  customer : OrderCustomer
  items : List OrderItem
  total : ℚ
  status : OrderStatus
  createdAt : Nat
deriving DecidableEq, Repr

/-- Seeded orders table from src/lib/db.ts. -/
def ordersTable : List Order :=
  [ { id := "ord_1001"
    , customer := { name := "Sarah Chen", email := "sarah.chen@company.com" }
    , items :=
      [ { productId := "prod_001", name := "Pro Widget", quantity := 2, price := (29999 : ℚ) / 100 }
      , { productId := "prod_003", name := "Premium Cable Kit", quantity := 1, price := (4999 : ℚ) / 100 } ]
    , total := (64997 : ℚ) / 100
    , status := .completed
    , createdAt := mkDate 2024 1 10 }
  , { id := "ord_1002"
    , customer := { name := "Marcus Johnson", email := "marcus.johnson@company.com" }
    , items :=
      [ { productId := "prod_002", name := "Standard Widget", quantity := 5, price := (14999 : ℚ) / 100 } ]
    , total := (74995 : ℚ) / 100
    , status := .processing
    , createdAt := mkDate 2024 1 18 }
  , { id := "ord_1003"
    , customer := { name := "Alex Rivera", email := "alex.rivera@company.com" }
    , items :=
      [ { productId := "prod_004", name := "Prototype Sensor Array", quantity := 1, price := (89999 : ℚ) / 100 } ]
    , total := (89999 : ℚ) / 100
    , status := .pending
    , createdAt := mkDate 2024 1 20 } ]

/-- Partial Order filter on the primitive-valued fields; object-valued fields
(customer, items) compare by JavaScript reference equality and no caller in
the repository passes them, so they are omitted from the embedding. -/
structure OrderWhere where
  id : Option String := none
  total : Option ℚ := none
  status : Option OrderStatus := none
  createdAt : Option Nat := none
deriving DecidableEq, Repr

/-- Does an order satisfy every field the partial filter specifies? -/
def orderMatches (w : OrderWhere) (o : Order) : Bool :=
  (match w.id with | none => true | some v => o.id = v) &&
  (match w.total with | none => true | some v => o.total = v) &&
  (match w.status with | none => true | some v => o.status = v) &&
  (match w.createdAt with | none => true | some v => o.createdAt = v)

/-- Options object of db.orders.findMany. -/
structure OrdersFindManyOptions where
  whereQ : Option OrderWhere := none
  includeQ : Option (List (String × Bool)) := none
  orderBy : Option (String × SortDir) := none
  take : Option Nat := none
deriving DecidableEq, Repr

/-- Same comparator shape as the products sort: createdAt is the only Date
field of Order, so other field names leave the order unchanged. -/
def orderSort (orderBy : String × SortDir) (xs : List Order) : List Order :=
  if orderBy.1 = "createdAt" then
    match orderBy.2 with
    | .asc => sortByKey (fun o => (o.createdAt : Int)) xs
    | .desc => sortByKey (fun o => -(o.createdAt : Int)) xs
  else xs

/-- Embedding of db.orders.findMany (src/lib/db.ts lines 267-305): copy the
table, filter by the partial where clause, optionally sort, then apply take
(only when truthy). Every path returns an array. -/
def db.orders.findMany (options : Option OrdersFindManyOptions) : DbResult Order :=
  match options with
  | none => .arr ordersTable
  | some o =>
    let results := ordersTable
    let results := match o.whereQ with
      | some w => results.filter (orderMatches w)
      | none => results
    let results := match o.orderBy with
      | some ob => orderSort ob results
      | none => results
    let results := match o.take with
      | some n => if n ≠ 0 then results.take n else results
      | none => results
    .arr results

-- ### Page views (src/lib/db.ts)

/-- Page-view record (src/lib/db.ts, interface PageView). -/
structure PageView where
  pageId : String
  count : Nat
  lastViewedAt : Nat
deriving DecidableEq, Repr

/-- The page-views Map, as an association list in insertion order. -/
abbrev PVStore : Type := List (String × PageView)

/-- Map.has on the association list. -/
def PVStore.hasKey (store : PVStore) (k : String) : Bool :=
  store.any (fun e => e.1 = k)

/-- Map.get on the association list. -/
def PVStore.getKey (store : PVStore) (k : String) : Option PageView :=
  (store.find? (fun e => e.1 = k)).map (fun e => e.2)

/-- Map.set on the association list: replace in place when the key exists,
append otherwise (JavaScript Maps keep insertion order). -/
def PVStore.setKey (store : PVStore) (k : String) (v : PageView) : PVStore :=
  if store.hasKey k then
    store.map (fun e => if e.1 = k then (k, v) else e)
  else
    store ++ [(k, v)]

/-- Seeded page-views Map from src/lib/db.ts. -/
def pageViewsStore : PVStore :=
  [ ("/", { pageId := "/", count := 1420, lastViewedAt := mkDate 2024 1 20 })
  , ("/products", { pageId := "/products", count := 873, lastViewedAt := mkDate 2024 1 20 })
  , ("/dashboard", { pageId := "/dashboard", count := 2104, lastViewedAt := mkDate 2024 1 20 }) ]

/-- Embedding of db.pageViews.findUnique (src/lib/db.ts lines 327-332): the
source simulates a stale read under concurrency and returns null
unconditionally, even when a record with the requested pageId exists in the
store; the store argument is ignored exactly as the source ignores it. -/
def db.pageViews.findUnique (pageId : String) (store : PVStore) : Option PageView :=
  none

/-- Message of the unique-constraint error thrown by db.pageViews.create,
with the pageId interpolated as in the source template string. -/
def uniqueViolationMsg (pageId : String) : String :=
  "Unique constraint failed on the fields: (`pageId`). A record with pageId \"" ++
    pageId ++ "\" already exists."

/-- Embedding of db.pageViews.create (src/lib/db.ts lines 334-343): when the
pageId is already present, throw the unique-constraint error and leave the
store untouched; otherwise insert the record and return it. -/
def db.pageViews.create (data : PageView) (store : PVStore) : Except String PageView × PVStore :=
  if store.hasKey data.pageId then
    (.error (uniqueViolationMsg data.pageId), store)
  else
    (.ok data, store.setKey data.pageId data)

/-- Partial PageView patch for db.pageViews.update. -/
structure PageViewPatch where
  pageId : Option String := none
  count : Option Nat := none
  lastViewedAt : Option Nat := none
deriving DecidableEq, Repr

/-- Spread of a patch over an existing record (top-level keys replace). -/
def PageViewPatch.applyTo (patch : PageViewPatch) (pv : PageView) : PageView :=
  { pageId := patch.pageId.getD pv.pageId
  , count := patch.count.getD pv.count
  , lastViewedAt := patch.lastViewedAt.getD pv.lastViewedAt }

/-- Embedding of db.pageViews.update (src/lib/db.ts lines 345-354): throw when
the record is missing, otherwise merge the patch over the existing record and
store it. -/
def db.pageViews.update (pageId : String) (data : PageViewPatch) (store : PVStore) :
    Except String PageView × PVStore :=
  match store.getKey pageId with
  | none =>
    (.error ("Record not found: pageViews with pageId \"" ++ pageId ++ "\""), store)
  | some existing =>
    let updated := data.applyTo existing
    (.ok updated, store.setKey pageId updated)

-- ### Spec-modelled services and the numeric-id product variant
-- The checkout and product-detail handlers under src/app/api import
-- db.products.findUnique, db.orders.create, paymentService and
-- inventoryService from lib/db, but the src snapshot of lib/db.ts does not
-- contain them; they are modelled from spec sections 4.1 and 4.2.

/-- Product record of the numeric-id database variant used by the checkout
and product-detail handlers (item.productId is a number there). -/
structure ProductN where
  id : Int
  sku : String
  name : String
  description : String
  price : ℚ
  inventory : Nat
deriving DecidableEq, Repr

/-- Modelled from the spec: db.products.findUnique is missing from the src
snapshot of lib/db.ts (only its callers are present). Spec section 4.1 says
findUnique returns the matching record or a null result and never throws for
not-found; the backing table of this variant is a parameter. -/
def db.productsN.findUnique (table : List ProductN) (id : Int) : Option ProductN :=
  table.find? (fun p => p.id = id)

/-- Availability answer of the inventory service. -/
structure Availability where
  available : Bool
  currentStock : Nat
deriving DecidableEq, Repr

/-- Modelled from the spec: inventoryService is missing from the src snapshot
of lib/db.ts. Spec section 4.2 describes a synchronous availability check of
current stock against the requested quantity; stock levels are a parameter
and are never decremented. -/
def inventoryService.checkAvailability (stock : Int → Nat) (productId : Int) (quantity : Nat) :
    Availability :=
  { available := decide (quantity ≤ stock productId), currentStock := stock productId }

/-- Argument record of paymentService.processPayment. -/
structure PaymentRequest where
  amount : ℚ
  currency : String
  customerId : String
deriving DecidableEq, Repr

/-- Resolved value of the payment service: success with a transaction id, or
a declined result carrying an error. -/
structure PaymentResult where
  success : Bool
  transactionId : Option String := none
  error : Option String := none
deriving DecidableEq, Repr

/-- A JavaScript Promise, remembering the value it resolves to. -/
inductive JsPromise (α : Type) where
  | promise (val : α)
deriving DecidableEq, Repr

/-- Modelled from the spec: paymentService is missing from the src snapshot of
lib/db.ts. Spec section 4.2 says it returns, after a delay, success with a
transaction id about 90 percent of the time and a declined result otherwise,
and that it must be awaited. The randomized outcome is passed in as
`outcome`; the returned value is the pending Promise. -/
def paymentService.processPayment (outcome : PaymentResult) (req : PaymentRequest) :
    JsPromise PaymentResult :=
  .promise outcome

/-- Reading the property named success on a Promise object (one that was not
awaited) yields undefined in JavaScript, whatever the promise resolves to. -/
def JsPromise.successField {α : Type} : JsPromise α → Option Bool :=
  fun _ => none

/-- Reading the property named error on a Promise object yields undefined. -/
def JsPromise.errorField {α : Type} : JsPromise α → Option String :=
  fun _ => none

/-- Reading the property named transactionId on a Promise object yields
undefined. -/
def JsPromise.transactionIdField {α : Type} : JsPromise α → Option String :=
  fun _ => none

/-- Order shape produced by the spec-modelled db.orders.create. -/
structure OrderCreated where
  id : String
  status : String
deriving DecidableEq, Repr

/-- Line item accumulated by the checkout handler. -/
structure COrderItem where
  productId : Int
  quantity : Nat
  price : ℚ
deriving DecidableEq, Repr

/-- Modelled from the spec: db.orders.create is missing from the src snapshot
of lib/db.ts (the checkout handler is its only caller). Spec section 4.1 says
create synthesizes a time-based id and appends; the initial status is not
fixed by the spec and is unreachable in the handler (see the checkout
theorems), so pending is used. -/
def db.orders.create (userId : String) (items : List COrderItem) (total : ℚ) (now : Nat) :
    OrderCreated :=
  { id := "ord_" ++ toString now, status := "pending" }

-- ### GET /api/products/[id] (src/app/api/products/[id]/route.ts, fixed variant)

/-- Inventory block of the product-detail response. -/
structure InventoryBlock where
  inStock : Bool
  quantity : Nat
  lowStock : Bool
deriving DecidableEq, Repr

/-- Payload of a successful product-detail response (the formatted price
string is a rendering of the price rational and carries no extra data). -/
structure ProductsGetData where
  product : ProductN
  inventoryBlock : Option InventoryBlock
deriving DecidableEq, Repr

/-- Response envelope of GET /api/products/[id]. -/
structure ProductsGetResponse where
  status : Nat
  success : Bool
  error : Option String
  data : Option ProductsGetData
deriving DecidableEq, Repr

/-- Embedding of the fixed GET handler of src/app/api/products/[id]/route.ts:
parse the id, answer 400 on NaN before touching the database, then look the
product up and answer 404 or the success envelope. The second component
records the ids passed to db.products.findUnique, in call order. -/
def api.productsId.GET (idParam : String) (includeInventory : Bool)
    (table : List ProductN) (stock : Int → Nat) : ProductsGetResponse × List Int :=
  match parseIntJS idParam with
  | none =>
    ({ status := 400, success := false, error := some "Invalid product ID", data := none }, [])
  | some productId =>
    match db.productsN.findUnique table productId with
    | none =>
      ({ status := 404, success := false, error := some "Product not found", data := none },
        [productId])
    | some product =>
      let inv :=
        if includeInventory then
          let st := inventoryService.checkAvailability stock product.id 1
          some { inStock := st.available, quantity := st.currentStock
               , lowStock := decide (st.currentStock < 10) : InventoryBlock }
        else none
      ({ status := 200, success := true, error := none
       , data := some { product := product, inventoryBlock := inv } }, [productId])

-- ### POST /api/checkout (src/app/api/checkout/route.ts)

/-- Checkout line item of the request body. -/
structure CheckoutItem where
  productId : Int
  quantity : Nat
deriving DecidableEq, Repr

/-- Checkout request body; paymentMethod and the shipping address are carried
but never read by the handler. -/
structure CheckoutRequest where
  customerId : String
  items : List CheckoutItem
  paymentMethod : String := ""
  shippingAddress : List (String × String) := []
deriving DecidableEq, Repr

/-- Response envelope of POST /api/checkout. The transactionId field of the
success envelope is what the source reads off paymentResult, hence an
undefined-able value; the structured details object of the 409 body (product
id, requested and available quantities) is not carried, only the status and
flags the claims inspect. -/
structure CheckoutResponse where
  status : Nat
  success : Bool
  error : Option String := none
  details : Option String := none
  orderId : Option String := none
  transactionId : Option (Option String) := none
deriving DecidableEq, Repr

/-- Per-item validation loop of the checkout handler: stop at the first
missing product (404) or unavailable stock (409); otherwise accumulate the
order items and the subtotal, in request order. -/
def checkoutValidateItems (table : List ProductN) (stock : Int → Nat) :
    List CheckoutItem → Except CheckoutResponse (List COrderItem × ℚ)
  | [] => .ok ([], 0)
  | item :: rest =>
    match db.productsN.findUnique table item.productId with
    | none =>
      .error { status := 404, success := false
             , error := some ("Product " ++ toString item.productId ++ " not found") }
    | some product =>
      let availability := inventoryService.checkAvailability stock item.productId item.quantity
      if !availability.available then
        .error { status := 409, success := false, error := some "Insufficient inventory" }
      else
        match checkoutValidateItems table stock rest with
        | .error r => .error r
        | .ok (acc, sub) =>
          .ok ({ productId := item.productId, quantity := item.quantity, price := product.price }
                :: acc,
               product.price * item.quantity + sub)

/-- Embedding of POST /api/checkout (src/app/api/checkout/route.ts): validate
the body, the customer and every item, then process the payment. The source
omits the await on paymentService.processPayment, so the subsequent check
reads the success property of the pending Promise (undefined); the modelled
outcome the promise resolves to is `paymentOutcome`. The stock reservations
the source awaits have no observable effect on the modelled state (spec 4.2:
reserveStock does not decrement stock) and are not represented. -/
def api.checkout.POST (body : CheckoutRequest) (table : List ProductN) (stock : Int → Nat)
    (paymentOutcome : PaymentResult) (now : Nat) : CheckoutResponse :=
  if !truthyStr body.customerId || body.items.length = 0 then
    { status := 400, success := false, error := some "Invalid checkout request"
    , details := some "Customer ID and at least one item are required" }
  else
    match db.users.findUnique body.customerId with
    | none => { status := 404, success := false, error := some "Customer not found" }
    | some customer =>
      match checkoutValidateItems table stock body.items with
      | .error r => r
      | .ok (orderItems, subtotal) =>
        let taxRate : ℚ := 8 / 100
        let tax := subtotal * taxRate
        let total := subtotal + tax
        let paymentResult := paymentService.processPayment paymentOutcome
          { amount := total, currency := "USD", customerId := body.customerId }
        if !truthyOptBool paymentResult.successField then
          { status := 402, success := false, error := some "Payment failed"
          , details := paymentResult.errorField }
        else
          let order := db.orders.create body.customerId orderItems total now
          { status := 200, success := true, orderId := some order.id
          , transactionId := some paymentResult.transactionIdField }

-- ### POST page-view tracking (src/app/api/upload/route.ts, track document)

/-- Response of the page-view tracking POST. -/
structure TrackResponse where
  status : Nat
  views : Option Nat := none
  error : Option String := none
deriving DecidableEq, Repr

/-- Embedding of the page-view tracking POST handler: 400 without a pageId;
otherwise consult db.pageViews.findUnique and branch to update or create. An
Except error is a thrown runtime exception escaping the handler. -/
def api.track.POST (pageId : String) (store : PVStore) (now : Nat) :
    Except String TrackResponse × PVStore :=
  if !truthyStr pageId then
    (.ok { status := 400, error := some "pageId is required" }, store)
  else
    match db.pageViews.findUnique pageId store with
    | some existing =>
      match db.pageViews.update pageId
        { count := some (existing.count + 1), lastViewedAt := some now } store with
      | (.error e, st) => (.error e, st)
      | (.ok updated, st) => (.ok { status := 200, views := some updated.count }, st)
    | none =>
      match db.pageViews.create { pageId := pageId, count := 1, lastViewedAt := now } store with
      | (.error e, st) => (.error e, st)
      | (.ok created, st) => (.ok { status := 200, views := some created.count }, st)

-- ### Comments (src/unnamed/part_012)

/-- Entity id of a comment: the request body may carry a number or a string
(the product seed rows use the number 1001). -/
inductive EntityIdV where
  | num (n : Int)
  | str (s : String)
deriving DecidableEq, Repr

/-- Truthiness of an entity id: 0 and the empty string are falsy. -/
def EntityIdV.truthy : EntityIdV → Bool
  | .num n => n ≠ 0
  | .str s => s ≠ ""

/-- Comment record (src/unnamed/part_012, interface Comment); recursive
because each comment carries a replies array. -/
inductive Comment where
  | mk (id : String) (parentId : Option String) (entityType : String) (entityId : EntityIdV)
       (authorId : String) (content : String) (createdAt : Nat) (updatedAt : Option Nat)
       (likes : Nat) (replies : List Comment)

/-- Comment id accessor. -/
def Comment.id : Comment → String
  | .mk i _ _ _ _ _ _ _ _ _ => i

/-- Comment parentId accessor. -/
def Comment.parentId : Comment → Option String
  | .mk _ p _ _ _ _ _ _ _ _ => p

/-- Comment entityType accessor. -/
def Comment.entityType : Comment → String
  | .mk _ _ t _ _ _ _ _ _ _ => t

/-- Comment entityId accessor. -/
def Comment.entityId : Comment → EntityIdV
  | .mk _ _ _ e _ _ _ _ _ _ => e

/-- Comment authorId accessor. -/
def Comment.authorId : Comment → String
  | .mk _ _ _ _ a _ _ _ _ _ => a

/-- Comment content accessor. -/
def Comment.content : Comment → String
  | .mk _ _ _ _ _ c _ _ _ _ => c

/-- Comment likes accessor. -/
def Comment.likes : Comment → Nat
  | .mk _ _ _ _ _ _ _ _ l _ => l

/-- Comment replies accessor. -/
def Comment.replies : Comment → List Comment
  | .mk _ _ _ _ _ _ _ _ _ r => r

/-- Seeded comments store from src/unnamed/part_012. -/
def commentsStore : List Comment :=
  [ .mk "cmt_001" none "product" (.num 1001) "usr_1a2b3c"
      "Great product! Highly recommend." (mkDate 2024 1 15) none 5 []
  , .mk "cmt_002" (some "cmt_001") "product" (.num 1001) "usr_4d5e6f"
      "Agreed! Best purchase I made." (mkDate 2024 1 16) none 2 [] ]

/-- Truthiness of an optional string (undefined and the empty string are
falsy). -/
def truthyOptStr : Option String → Bool
  | none => false
  | some s => s ≠ ""

/-- Request body of POST /api/comments. -/
structure CommentsPostBody where
  entityType : String
  entityId : EntityIdV
  authorId : String
  content : String
  parentId : Option String := none
deriving Repr

/-- Response envelope of the comments handlers. -/
structure CommentsResponse where
  status : Nat
  success : Bool
  error : Option String := none
  message : Option String := none
  dataId : Option String := none
deriving DecidableEq, Repr

/-- Embedding of POST /api/comments (src/unnamed/part_012 lines 122-186):
required-field truthiness check, content length bounds, author lookup,
optional parent lookup, then append the new comment to the store. -/
def api.comments.POST (body : CommentsPostBody) (store : List Comment) (now : Nat) :
    CommentsResponse × List Comment :=
  if !truthyStr body.entityType || !body.entityId.truthy ||
      !truthyStr body.authorId || !truthyStr body.content then
    ({ status := 400, success := false
     , error := some "entityType, entityId, authorId, and content are required" }, store)
  else if body.content.length < 1 || body.content.length > 1000 then
    ({ status := 400, success := false
     , error := some "Content must be between 1 and 1000 characters" }, store)
  else
    match db.users.findUnique body.authorId with
    | none => ({ status := 404, success := false, error := some "Author not found" }, store)
    | some author =>
      let parentMissing : Bool :=
        match body.parentId with
        | some pid => truthyStr pid && (store.find? (fun c => c.id = pid)).isNone
        | none => false
      if parentMissing then
        ({ status := 404, success := false, error := some "Parent comment not found" }, store)
      else
        let newId := "cmt_" ++ toString now
        let stored : Comment :=
          .mk newId (if truthyOptStr body.parentId then body.parentId else none)
            body.entityType body.entityId body.authorId body.content now none 0 []
        ({ status := 200, success := true, dataId := some newId }, store ++ [stored])

/-- Embedding of DELETE /api/comments (src/unnamed/part_012 lines 244-281):
400 without an id, 404 when no comment matches, 403 only when a userId is
supplied and differs from the author, otherwise splice the first matching
comment out of the store (child replies are not touched). -/
def api.comments.DELETE (commentId : Option String) (userId : Option String)
    (store : List Comment) : CommentsResponse × List Comment :=
  match commentId with
  | none => ({ status := 400, success := false, error := some "Comment ID is required" }, store)
  | some cid =>
    if cid = "" then
      ({ status := 400, success := false, error := some "Comment ID is required" }, store)
    else
      match store.find? (fun c => c.id = cid) with
      | none => ({ status := 404, success := false, error := some "Comment not found" }, store)
      | some comment =>
        if truthyOptStr userId && userId ≠ some comment.authorId then
          ({ status := 403, success := false
           , error := some "Not authorized to delete this comment" }, store)
        else
          ({ status := 200, success := true, message := some "Comment deleted" },
            store.eraseP (fun c => c.id = cid))

-- ### Notifications (src/app/api/notifications/route.ts)

/-- Notification type union. -/
inductive NotifType where
  | info
  | warning
  | error
  | success
deriving DecidableEq, Repr

/-- Notification record (src/app/api/notifications/route.ts). -/
structure Notification where
  id : String
  userId : String
  type : NotifType
  title : String
  message : String
  read : Bool
  createdAt : Nat
  expiresAt : Option Nat
deriving DecidableEq, Repr

/-- Seeded notifications store from src/app/api/notifications/route.ts. -/
def notificationsStore : List Notification :=
  [ { id := "notif_001", userId := "usr_1a2b3c", type := .info, title := "Welcome!"
    , message := "Thanks for joining our platform.", read := true
    , createdAt := mkDate 2024 1 15, expiresAt := none }
  , { id := "notif_002", userId := "usr_1a2b3c", type := .warning, title := "Password Expiring"
    , message := "Your password will expire in 7 days.", read := false
    , createdAt := mkDate 2024 1 20, expiresAt := some (mkDate 2024 2 20) }
  , { id := "notif_003", userId := "usr_4d5e6f", type := .success, title := "Order Shipped"
    , message := "Your order #12345 has been shipped.", read := false
    , createdAt := mkDate 2024 1 21, expiresAt := none } ]

/-- Request body of PATCH /api/notifications. -/
structure NotificationsPatchBody where
  notificationIds : Option (List String) := none
  markAllRead : Bool := false
  userId : Option String := none
deriving DecidableEq, Repr

/-- Response envelope of PATCH /api/notifications. -/
structure NotifPatchResponse where
  status : Nat
  success : Bool
  error : Option String := none
  updated : Option Nat := none
deriving DecidableEq, Repr

/-- In-place mutation of the first notification whose id and userId both
match, as performed by notificationsStore.find followed by the write of the
read flag; the flag reports whether a notification was found. -/
def setReadFirst (store : List Notification) (id uid : String) : List Notification × Bool :=
  match store with
  | [] => ([], false)
  | n :: rest =>
    if n.id = id ∧ n.userId = uid then
      ({ n with read := true } :: rest, true)
    else
      let (rest2, found) := setReadFirst rest id uid
      (n :: rest2, found)

/-- Iteration of the fixed mark-as-read loop over the requested ids, threading
the store and the updated counter. -/
def markReadLoop (uid : String) (ids : List String) (store : List Notification) (updated : Nat) :
    List Notification × Nat :=
  match ids with
  | [] => (store, updated)
  | id :: rest =>
    let (store2, found) := setReadFirst store id uid
    markReadLoop uid rest store2 (if found then updated + 1 else updated)

/-- Embedding of PATCH /api/notifications (src/app/api/notifications/route.ts
lines 202-259, fixed variant): a markAllRead branch guarded by a truthy
userId, a 400 when notificationIds is not an array, a 400 when userId is
missing, and otherwise the per-id loop that only touches notifications owned
by the requesting user. -/
def api.notificationsRoute.PATCH (body : NotificationsPatchBody)
    (store : List Notification) : NotifPatchResponse × List Notification :=
  if body.markAllRead && truthyOptStr body.userId then
    let uid := body.userId.getD ""
    let store2 := store.map (fun n =>
      if n.userId = uid && !n.read then { n with read := true } else n)
    let count := (store.filter (fun n => n.userId = uid && !n.read)).length
    ({ status := 200, success := true, updated := some count }, store2)
  else
    match body.notificationIds with
    | none =>
      ({ status := 400, success := false, error := some "notificationIds array is required" },
        store)
    | some ids =>
      if !truthyOptStr body.userId then
        ({ status := 400, success := false, error := some "userId is required for security" },
          store)
      else
        let uid := body.userId.getD ""
        let (store2, updated) := markReadLoop uid ids store 0
        ({ status := 200, success := true, updated := some updated }, store2)

-- ### Settings (src/unnamed/part_011, settings document)

/-- Stored user-settings record. The notifications and privacy members are
JavaScript objects whose key set is not fixed (a shallow merge can replace
them with objects holding fewer keys), hence association lists of boolean
flags; preferences is an opaque string map. -/
structure UserSettings where
  userId : String
  theme : String
  language : String
  timezone : String
  notifications : List (String × Bool)
  privacy : List (String × Bool)
  preferences : List (String × String)
  updatedAt : Nat
deriving DecidableEq, Repr

/-- The settings store Map, keyed by userId. -/
abbrev SettingsStore : Type := List (String × UserSettings)

/-- Default settings object of the settings document (full default
notifications object: email true, push false, sms false, marketing false). -/
def defaultSettingsObj (userId : String) (now : Nat) : UserSettings :=
  { userId := userId
  , theme := "system"
  , language := "en-US"
  , timezone := "UTC"
  , notifications :=
      [("email", true), ("push", false), ("sms", false), ("marketing", false)]
  , privacy := [("profileVisible", true), ("showEmail", false), ("showActivity", true)]
  , preferences := []
  , updatedAt := now }

/-- Updates part of the PATCH body (the body minus userId); each present key
replaces the stored top-level key wholesale. -/
structure SettingsUpdates where
  theme : Option String := none
  language : Option String := none
  timezone : Option String := none
  notifications : Option (List (String × Bool)) := none
  privacy : Option (List (String × Bool)) := none
  preferences : Option (List (String × String)) := none
deriving DecidableEq, Repr

/-- Response envelope of PATCH /api/settings. -/
structure SettingsPatchResponse where
  status : Nat
  success : Bool
  error : Option String := none
  data : Option UserSettings := none
deriving DecidableEq, Repr

/-- Shallow merge of the updates over a settings record, as the spread in the
PATCH handler performs it: present top-level keys replace wholesale, nested
objects are not deep-merged, and userId is forced back. -/
def settingsShallowMerge (s : UserSettings) (u : SettingsUpdates) (userId : String) (now : Nat) :
    UserSettings :=
  { userId := userId
  , theme := u.theme.getD s.theme
  , language := u.language.getD s.language
  , timezone := u.timezone.getD s.timezone
  , notifications := u.notifications.getD s.notifications
  , privacy := u.privacy.getD s.privacy
  , preferences := u.preferences.getD s.preferences
  , updatedAt := now }

/-- Embedding of PATCH /api/settings (src/unnamed/part_011 lines 263-328):
after the 400 check for a missing userId, the handler evaluates
(undefined as any).trim(), which throws a TypeError on every request before
any settings are read, merged or stored; the remainder of the source (get or
default, shallow merge, theme and timezone checks, store write) is therefore
unreachable. -/
def api.settings.PATCH (userId : String) (updates : SettingsUpdates)
    (store : SettingsStore) (now : Nat) :
    Except String (SettingsPatchResponse × SettingsStore) :=
  if !truthyStr userId then
    .ok ({ status := 400, success := false, error := some "User ID is required" }, store)
  else
    .error "TypeError: Cannot read properties of undefined (reading trim)"

-- ### Helper lemmas

/-- Concatenation of strings is associative. -/
theorem strAppend_assoc (a b c : String) : a ++ b ++ c = a ++ (b ++ c) := by
  apply String.ext
  simp [String.data_append, List.append_assoc]

/-- The unique-constraint message ends in the words already exists, whatever
the pageId interpolated into it. -/
theorem uniqueViolationMsg_states_already_exists (pageId : String) :
    ∃ pre, uniqueViolationMsg pageId = pre ++ "already exists." := by
  refine ⟨"Unique constraint failed on the fields: (`pageId`). A record with pageId \"" ++
    pageId ++ "\" ", ?_⟩
  unfold uniqueViolationMsg
  rw [strAppend_assoc, strAppend_assoc, strAppend_assoc]
  rfl

/-- Looking a key up after the replacing write of Map.set finds the new
value. -/
theorem pvstore_getKey_map_set (store : PVStore) (k : String) (v : PageView)
    (h : store.hasKey k = true) :
    PVStore.getKey (store.map (fun e => if e.1 = k then (k, v) else e)) k = some v := by
  induction store with
  | nil => simp [PVStore.hasKey] at h
  | cons e rest ih =>
    by_cases he : e.1 = k
    · simp [PVStore.getKey, List.find?, he]
    · have hrest : PVStore.hasKey rest k = true := by
        simp [PVStore.hasKey, List.any_cons, he] at h
        simpa [PVStore.hasKey] using h
      have := ih hrest
      simpa [PVStore.getKey, List.find?, he] using this

/-- Looking a key up after the appending write of Map.set finds the new
value. -/
theorem pvstore_getKey_append (store : PVStore) (k : String) (v : PageView)
    (h : store.hasKey k = false) :
    PVStore.getKey (store ++ [(k, v)]) k = some v := by
  induction store with
  | nil => simp [PVStore.getKey, List.find?]
  | cons e rest ih =>
    have he : ¬(e.1 = k) := by
      intro hk
      simp [PVStore.hasKey, List.any_cons, hk] at h
    have hrest : PVStore.hasKey rest k = false := by
      simp [PVStore.hasKey, List.any_cons, he] at h
      simpa [PVStore.hasKey] using h
    have := ih hrest
    simpa [PVStore.getKey, List.find?, he] using this

/-- Map.set followed by Map.get yields the written value. -/
theorem pvstore_getKey_setKey (store : PVStore) (k : String) (v : PageView) :
    PVStore.getKey (store.setKey k v) k = some v := by
  unfold PVStore.setKey
  by_cases h : store.hasKey k = true
  · simpa [h] using pvstore_getKey_map_set store k v h
  · have h2 : store.hasKey k = false := by simpa using h
    simpa [h2] using pvstore_getKey_append store k v h2

-- ### C3

/-- C3: for every options argument, each of db.users.findMany,
db.products.findMany and db.orders.findMany returns an array (so a
non-undefined result always supports map and length); no code path yields a
scalar, null or undefined. -/
theorem c3_findMany_always_array :
    (∀ o, ∃ xs, db.users.findMany o = .arr xs) ∧
    (∀ o, ∃ xs, db.products.findMany o = .arr xs) ∧
    (∀ o, ∃ xs, db.orders.findMany o = .arr xs) := by
  refine ⟨?_, ?_, ?_⟩
  · intro o
    match o with
    | none => exact ⟨_, rfl⟩
    | some oo =>
      match h : oo.whereQ with
      | none => exact ⟨usersTable, by simp [db.users.findMany, h]⟩
      | some w => exact ⟨usersTable.filter (userMatches w), by simp [db.users.findMany, h]⟩
  · intro o
    match o with
    | none => exact ⟨_, rfl⟩
    | some oo => exact ⟨_, rfl⟩
  · intro o
    match o with
    | none => exact ⟨_, rfl⟩
    | some oo => exact ⟨_, rfl⟩

-- ### C6

/-- C6: db.users.findUnique returns the unique user whose id equals the
argument when one exists, and null (`none`) otherwise; being a total
function, it never throws for a non-existent id. -/
theorem c6_users_findUnique_spec (id : String) :
    (∀ u, db.users.findUnique id = some u →
      u ∈ usersTable ∧ u.id = id ∧ ∀ v ∈ usersTable, v.id = id → v = u) ∧
    (db.users.findUnique id = none → ∀ u ∈ usersTable, u.id ≠ id) := by
  constructor
  · intro u hu
    have hmem : u ∈ usersTable := List.mem_of_find?_eq_some hu
    have hid : u.id = id := by
      have := List.find?_some hu
      simpa using this
    refine ⟨hmem, hid, ?_⟩
    intro v hv hvid
    by_contra hne
    have hdistinct : usersTable.Pairwise (fun a b => a.id ≠ b.id) := by decide
    have hsymm : Symmetric (fun a b : User => a.id ≠ b.id) := by
      intro a b hab
      exact fun hba => hab hba.symm
    have := hdistinct.forall hsymm hv hmem hne
    exact this (hvid.trans hid.symm)
  · intro hnone u hu hid
    have := List.find?_eq_none.mp hnone u hu
    simp [hid] at this

/-- Witness for C6 at the concrete id of the first seeded user. -/
theorem c6_witness :
    db.users.findUnique "usr_1a2b3c" = some user1 ∧
    user1 ∈ usersTable ∧ user1.id = "usr_1a2b3c" := by
  have h : db.users.findUnique "usr_1a2b3c" = some user1 := by decide
  have := (c6_users_findUnique_spec "usr_1a2b3c").1 user1 h
  exact ⟨h, this.1, this.2.1⟩

-- ### C5

/-- C5: db.pageViews.create fails with the already-exists unique-constraint
error and leaves the store unchanged when the pageId is already present, and
inserts and returns the record when it is not. -/
theorem c5_pageViews_create_spec (data : PageView) (store : PVStore) :
    (store.hasKey data.pageId = true →
      (db.pageViews.create data store).1 = .error (uniqueViolationMsg data.pageId) ∧
      (∃ pre, uniqueViolationMsg data.pageId = pre ++ "already exists.") ∧
      (db.pageViews.create data store).2 = store) ∧
    (store.hasKey data.pageId = false →
      (db.pageViews.create data store).1 = .ok data ∧
      (db.pageViews.create data store).2 = store.setKey data.pageId data ∧
      PVStore.getKey (db.pageViews.create data store).2 data.pageId = some data) := by
  constructor
  · intro h
    refine ⟨?_, uniqueViolationMsg_states_already_exists data.pageId, ?_⟩ <;>
      simp [db.pageViews.create, h]
  · intro h
    refine ⟨?_, ?_, ?_⟩
    · simp [db.pageViews.create, h]
    · simp [db.pageViews.create, h]
    · have : (db.pageViews.create data store).2 = store.setKey data.pageId data := by
        simp [db.pageViews.create, h]
      rw [this]
      exact pvstore_getKey_setKey store data.pageId data

/-- Witness for C5: creating the seeded root page again fails with the
already-exists error, and creating an unseeded page succeeds. -/
theorem c5_witness :
    pageViewsStore.hasKey "/" = true ∧
    (db.pageViews.create { pageId := "/", count := 1, lastViewedAt := 0 } pageViewsStore).1 =
      .error (uniqueViolationMsg "/") ∧
    pageViewsStore.hasKey "/pricing" = false ∧
    (db.pageViews.create { pageId := "/pricing", count := 1, lastViewedAt := 0 }
      pageViewsStore).1 = .ok { pageId := "/pricing", count := 1, lastViewedAt := 0 } := by
  refine ⟨by decide, ?_, by decide, ?_⟩
  · exact ((c5_pageViews_create_spec { pageId := "/", count := 1, lastViewedAt := 0 }
      pageViewsStore).1 (by decide)).1
  · exact ((c5_pageViews_create_spec { pageId := "/pricing", count := 1, lastViewedAt := 0 }
      pageViewsStore).2 (by decide)).1

-- ### C9

/-- C9: db.pageViews.findUnique returns null for every pageId, even when the
record exists in the store; consequently the page-view tracking POST always
takes the create branch and, for a pageId already present in the store, the
create call throws the unique-constraint error out of the handler, leaving
the store unchanged. -/
theorem c9_track_stale_read_always_throws :
    (∀ pid store, db.pageViews.findUnique pid store = none) ∧
    (∀ pid store now, truthyStr pid = true → PVStore.hasKey store pid = true →
      (api.track.POST pid store now).1 = .error (uniqueViolationMsg pid) ∧
      (api.track.POST pid store now).2 = store) := by
  constructor
  · intro pid store
    rfl
  · intro pid store now h1 h2
    constructor <;>
      simp [api.track.POST, db.pageViews.findUnique, db.pageViews.create, h1, h2]

/-- Witness for C9: tracking the seeded root page throws the already-exists
error out of the handler. -/
theorem c9_witness :
    truthyStr "/" = true ∧ pageViewsStore.hasKey "/" = true ∧
    (api.track.POST "/" pageViewsStore 0).1 = .error (uniqueViolationMsg "/") := by
  refine ⟨by decide, by decide, ?_⟩
  exact (c9_track_stale_read_always_throws.2 "/" pageViewsStore 0 (by decide) (by decide)).1

-- ### C2

/-- C2: for every id path parameter that does not parse to a number, the
fixed GET /api/products/[id] handler answers 400 with the invalid-id message,
never 404, and performs no database lookup (the recorded lookup trace is
empty). -/
theorem c2_products_get_invalid_id (idParam : String) (includeInventory : Bool)
    (table : List ProductN) (stock : Int → Nat)
    (h : parseIntJS idParam = none) :
    (api.productsId.GET idParam includeInventory table stock).1.status = 400 ∧
    (api.productsId.GET idParam includeInventory table stock).1.error =
      some "Invalid product ID" ∧
    (api.productsId.GET idParam includeInventory table stock).1.status ≠ 404 ∧
    (api.productsId.GET idParam includeInventory table stock).2 = [] := by
  refine ⟨?_, ?_, ?_, ?_⟩ <;> simp [api.productsId.GET, h]

/-- Witness for C2 at the id string abc from the spec. -/
theorem c2_witness :
    parseIntJS "abc" = none ∧
    (api.productsId.GET "abc" false [] (fun _ => 0)).1.status = 400 ∧
    (api.productsId.GET "abc" false [] (fun _ => 0)).2 = [] := by
  have h : parseIntJS "abc" = none := by decide
  have := c2_products_get_invalid_id "abc" false [] (fun _ => 0) h
  exact ⟨h, this.1, this.2.2.2⟩

-- ### C4

/-- C4 (code divergence): at the PATCH settings request with userId of the
first seeded user and a notifications update of a single email key, starting
from the full default notifications object, the handler throws the TypeError
from (undefined as any).trim() before any merge or store write, so no
response is produced; the shallow merge that the remainder of the source
would apply (and that the spec documents) would have yielded a notifications
object that is exactly the single email key. -/
theorem c4_settings_patch_throws_before_merge :
    api.settings.PATCH "usr_1a2b3c" { notifications := some [("email", false)] }
        [("usr_1a2b3c", defaultSettingsObj "usr_1a2b3c" (mkDate 2024 1 15))] (mkDate 2024 1 21)
      = .error "TypeError: Cannot read properties of undefined (reading trim)" ∧
    (settingsShallowMerge (defaultSettingsObj "usr_1a2b3c" (mkDate 2024 1 15))
        { notifications := some [("email", false)] } "usr_1a2b3c" (mkDate 2024 1 21)).notifications
      = [("email", false)] := by
  constructor
  · rfl
  · rfl

-- ### C8

/-- A string of positive length is truthy. -/
theorem truthyStr_of_length_pos (s : String) (h : 0 < s.length) : truthyStr s = true := by
  simp only [truthyStr, ne_eq, decide_eq_true_eq]
  intro he
  subst he
  simp at h

/-- C8: for a comments POST whose required fields are all present (truthy)
and whose author exists, with no parentId: content of length 1001 yields a
400 and leaves the store unchanged, while content of length 1 yields a
success envelope and appends exactly the new comment to the store. -/
theorem c8_comments_post_content_length (body : CommentsPostBody) (store : List Comment)
    (now : Nat)
    (hET : truthyStr body.entityType = true)
    (hEI : body.entityId.truthy = true)
    (hA : truthyStr body.authorId = true)
    (hAuthor : (db.users.findUnique body.authorId).isSome = true)
    (hParent : body.parentId = none) :
    (body.content.length = 1001 →
      (api.comments.POST body store now).1.status = 400 ∧
      (api.comments.POST body store now).1.success = false ∧
      (api.comments.POST body store now).2 = store) ∧
    (body.content.length = 1 →
      (api.comments.POST body store now).1.status = 200 ∧
      (api.comments.POST body store now).1.success = true ∧
      (api.comments.POST body store now).2 =
        store ++ [Comment.mk ("cmt_" ++ toString now) none body.entityType body.entityId
          body.authorId body.content now none 0 []]) := by
  constructor
  · intro hLen
    have hC : truthyStr body.content = true :=
      truthyStr_of_length_pos body.content (by omega)
    refine ⟨?_, ?_, ?_⟩ <;>
      simp [api.comments.POST, hET, hEI, hA, hC, hLen]
  · intro hLen
    have hC : truthyStr body.content = true :=
      truthyStr_of_length_pos body.content (by omega)
    obtain ⟨author, hAu⟩ := Option.isSome_iff_exists.mp hAuthor
    refine ⟨?_, ?_, ?_⟩ <;>
      simp [api.comments.POST, hET, hEI, hA, hC, hLen, hAu, hParent, truthyOptStr]

set_option maxRecDepth 20000 in
/-- Witness for C8: a one-character comment by the first seeded user succeeds
and is appended, and a 1001-character comment is rejected with a 400. -/
theorem c8_witness :
    ((api.comments.POST
        { entityType := "product", entityId := .num 1001
        , authorId := "usr_1a2b3c", content := "a" } commentsStore 0).1.success = true) ∧
    ((api.comments.POST
        { entityType := "product", entityId := .num 1001
        , authorId := "usr_1a2b3c"
        , content := String.mk (List.replicate 1001 'a') } commentsStore 0).1.status = 400) := by
  constructor
  · exact ((c8_comments_post_content_length
      { entityType := "product", entityId := .num 1001
      , authorId := "usr_1a2b3c", content := "a" } commentsStore 0
      (by decide) (by decide) (by decide) (by decide) rfl).2 (by decide)).2.1
  · exact ((c8_comments_post_content_length
      { entityType := "product", entityId := .num 1001
      , authorId := "usr_1a2b3c", content := String.mk (List.replicate 1001 'a') }
      commentsStore 0
      (by decide) (by decide) (by decide) (by decide) rfl).1 (by decide)).1

-- ### C10

/-- C10: for a comment id present in the store and no userId query parameter,
the comments DELETE removes exactly one comment and answers success whatever
the author of the comment was (the 403 ownership check only runs when a
userId is supplied and mismatches), and every other comment — in particular
every child reply of the deleted one — stays in the store. -/
theorem c10_comments_delete_ignores_ownership (store : List Comment) (cid : String)
    (hCid : cid ≠ "")
    (hFound : (store.find? (fun c => c.id = cid)).isSome = true) :
    (api.comments.DELETE (some cid) none store).1.status = 200 ∧
    (api.comments.DELETE (some cid) none store).1.success = true ∧
    (api.comments.DELETE (some cid) none store).2.length + 1 = store.length ∧
    (∀ c ∈ store, c.id ≠ cid → c ∈ (api.comments.DELETE (some cid) none store).2) := by
  obtain ⟨cm, hcm⟩ := Option.isSome_iff_exists.mp hFound
  have hout : api.comments.DELETE (some cid) none store =
      ({ status := 200, success := true, message := some "Comment deleted" },
        store.eraseP (fun c => c.id = cid)) := by
    simp [api.comments.DELETE, hCid, hcm, truthyOptStr]
  have hmem : cm ∈ store := List.mem_of_find?_eq_some hcm
  have hpcm : cm.id = cid := by simpa using List.find?_some hcm
  refine ⟨by rw [hout], by rw [hout], ?_, ?_⟩
  · rw [hout]
    have hlen : (store.eraseP (fun c => c.id = cid)).length = store.length - 1 :=
      List.length_eraseP_of_mem hmem (by simpa using hpcm)
    have hpos : 0 < store.length := List.length_pos_of_mem hmem
    simp only [hlen]
    omega
  · intro c hc hne
    rw [hout]
    have : c ∈ store.eraseP (fun c => c.id = cid) := by
      rw [List.mem_eraseP_of_neg (by simpa using hne)]
      exact hc
    simpa using this

/-- Witness for C10: deleting the seeded root comment with no userId succeeds
although the requester is unknown, and the seeded child reply survives. -/
theorem c10_witness :
    ("cmt_001" : String) ≠ "" ∧
    (commentsStore.find? (fun c => c.id = "cmt_001")).isSome = true ∧
    (api.comments.DELETE (some "cmt_001") none commentsStore).1.status = 200 ∧
    (api.comments.DELETE (some "cmt_001") none commentsStore).2.length + 1 =
      commentsStore.length ∧
    (Comment.mk "cmt_002" (some "cmt_001") "product" (.num 1001) "usr_4d5e6f"
        "Agreed! Best purchase I made." (mkDate 2024 1 16) none 2 []) ∈
      (api.comments.DELETE (some "cmt_001") none commentsStore).2 := by
  have h := c10_comments_delete_ignores_ownership commentsStore "cmt_001"
    (by decide) (by decide)
  refine ⟨by decide, by decide, h.1, h.2.2.1, ?_⟩
  refine h.2.2.2 _ ?_ (by decide)
  exact List.mem_cons_of_mem _ (List.mem_cons_self _ _)

-- ### C7

/-- One step of the mark-as-read loop relates the stores pointwise: every
notification is either untouched or, when owned by the requesting user, has
its read flag set. -/
theorem setReadFirst_rel (uid id : String) (store : List Notification) :
    List.Forall₂
      (fun n n2 => n2 = n ∨ (n.userId = uid ∧ n2 = { n with read := true }))
      store (setReadFirst store id uid).1 := by
  induction store with
  | nil => simp [setReadFirst]
  | cons n rest ih =>
    by_cases h : n.id = id ∧ n.userId = uid
    · have hout : (setReadFirst (n :: rest) id uid).1 = { n with read := true } :: rest := by
        simp [setReadFirst, h]
      rw [hout]
      exact List.Forall₂.cons (Or.inr ⟨h.2, rfl⟩)
        ((List.forall₂_same).mpr (fun a _ => Or.inl rfl))
    · have hout : (setReadFirst (n :: rest) id uid).1 = n :: (setReadFirst rest id uid).1 := by
        simp [setReadFirst, h]
      rw [hout]
      exact List.Forall₂.cons (Or.inl rfl) ih

/-- The untouched-or-read-set relation of a fixed owner composes. -/
theorem readRel_trans (uid : String) (a b c2 : List Notification)
    (h1 : List.Forall₂
      (fun n n2 => n2 = n ∨ (n.userId = uid ∧ n2 = { n with read := true })) a b)
    (h2 : List.Forall₂
      (fun n n2 => n2 = n ∨ (n.userId = uid ∧ n2 = { n with read := true })) b c2) :
    List.Forall₂
      (fun n n2 => n2 = n ∨ (n.userId = uid ∧ n2 = { n with read := true })) a c2 := by
  induction h1 generalizing c2 with
  | nil =>
    cases h2
    exact List.Forall₂.nil
  | cons hab h1' ih =>
    cases h2 with
    | cons hbc h2' =>
      refine List.Forall₂.cons ?_ (ih _ h2')
      rcases hab with rfl | ⟨hown, rfl⟩
      · exact hbc
      · rcases hbc with rfl | ⟨hown2, rfl⟩
        · exact Or.inr ⟨hown, rfl⟩
        · exact Or.inr ⟨hown, rfl⟩

/-- The whole mark-as-read loop keeps every notification either untouched or
read-set-for-the-owner. -/
theorem markReadLoop_rel (uid : String) (ids : List String) (store : List Notification)
    (updated : Nat) :
    List.Forall₂
      (fun n n2 => n2 = n ∨ (n.userId = uid ∧ n2 = { n with read := true }))
      store (markReadLoop uid ids store updated).1 := by
  induction ids generalizing store updated with
  | nil =>
    simp only [markReadLoop]
    exact (List.forall₂_same).mpr (fun a _ => Or.inl rfl)
  | cons id rest ih =>
    have hout : (markReadLoop uid (id :: rest) store updated).1 =
        (markReadLoop uid rest (setReadFirst store id uid).1
          (if (setReadFirst store id uid).2 then updated + 1 else updated)).1 := by
      simp [markReadLoop]
    rw [hout]
    exact readRel_trans uid _ _ _ (setReadFirst_rel uid id store) (ih _ _)

/-- C7: a notifications PATCH carrying a notificationIds list (markAllRead
not set) answers 400 and changes nothing when userId is missing; when userId
is supplied, every notification in the final store is either unchanged or is
an owned-by-that-user notification with its read flag set, so a notification
of another user is never flipped. -/
theorem c7_notifications_patch_owner_only (body : NotificationsPatchBody)
    (store : List Notification) (ids : List String)
    (hIds : body.notificationIds = some ids)
    (hNoMark : body.markAllRead = false) :
    (body.userId = none →
      (api.notificationsRoute.PATCH body store).1.status = 400 ∧
      (api.notificationsRoute.PATCH body store).2 = store) ∧
    (∀ uid, body.userId = some uid →
      List.Forall₂
        (fun n n2 => n2 = n ∨ (n.userId = uid ∧ n2 = { n with read := true }))
        store (api.notificationsRoute.PATCH body store).2) := by
  constructor
  · intro hU
    constructor <;>
      simp [api.notificationsRoute.PATCH, hIds, hNoMark, hU, truthyOptStr]
  · intro uid hU
    by_cases he : uid = ""
    · subst he
      have hout : (api.notificationsRoute.PATCH body store).2 = store := by
        simp [api.notificationsRoute.PATCH, hIds, hNoMark, hU, truthyOptStr]
      rw [hout]
      exact (List.forall₂_same).mpr (fun a _ => Or.inl rfl)
    · have hout : (api.notificationsRoute.PATCH body store).2 =
          (markReadLoop uid ids store 0).1 := by
        simp [api.notificationsRoute.PATCH, hIds, hNoMark, hU, truthyOptStr, he]
      rw [hout]
      exact markReadLoop_rel uid ids store 0

/-- Witness for C7: marking the third seeded notification (owned by the
second user) as read, requested by the first user, never flips it; and the
same request without a userId is answered 400 with the store unchanged. -/
theorem c7_witness :
    (api.notificationsRoute.PATCH { notificationIds := some ["notif_003"] }
      notificationsStore).1.status = 400 ∧
    (api.notificationsRoute.PATCH { notificationIds := some ["notif_003"] }
      notificationsStore).2 = notificationsStore ∧
    List.Forall₂
      (fun n n2 => n2 = n ∨ (n.userId = "usr_1a2b3c" ∧ n2 = { n with read := true }))
      notificationsStore
      (api.notificationsRoute.PATCH
        { notificationIds := some ["notif_003"], userId := some "usr_1a2b3c" }
        notificationsStore).2 := by
  have h1 := (c7_notifications_patch_owner_only
    { notificationIds := some ["notif_003"] } notificationsStore ["notif_003"] rfl rfl).1 rfl
  have h2 := (c7_notifications_patch_owner_only
    { notificationIds := some ["notif_003"], userId := some "usr_1a2b3c" }
    notificationsStore ["notif_003"] rfl rfl).2 "usr_1a2b3c" rfl
  exact ⟨h1.1, h1.2, h2⟩

-- ### C1

/-- When every requested product exists and has sufficient stock, the
checkout validation loop succeeds. -/
theorem checkoutValidateItems_ok (table : List ProductN) (stock : Int → Nat)
    (items : List CheckoutItem)
    (hFound : ∀ item ∈ items, (db.productsN.findUnique table item.productId).isSome = true)
    (hAvail : ∀ item ∈ items, item.quantity ≤ stock item.productId) :
    ∃ r, checkoutValidateItems table stock items = .ok r := by
  induction items with
  | nil => exact ⟨([], 0), rfl⟩
  | cons item rest ih =>
    obtain ⟨p, hp⟩ := Option.isSome_iff_exists.mp (hFound item (List.mem_cons_self _ _))
    have hq : item.quantity ≤ stock item.productId := hAvail item (List.mem_cons_self _ _)
    obtain ⟨⟨acc, sub⟩, hr⟩ := ih
      (fun i hi => hFound i (List.mem_cons_of_mem _ hi))
      (fun i hi => hAvail i (List.mem_cons_of_mem _ hi))
    refine ⟨({ productId := item.productId, quantity := item.quantity, price := p.price } :: acc,
      p.price * item.quantity + sub), ?_⟩
    simp [checkoutValidateItems, hp, hr, inventoryService.checkAvailability, hq]

/-- C1: for a checkout request that passes validation (truthy customer id,
nonempty items, customer exists, every product found, inventory available),
the handler returns a success envelope only if the payment result has a true
success field; in particular a declined payment yields HTTP 402 with a false
success flag. The missing await makes the handler read the success property
of the pending Promise, so the 402 branch is taken for every payment
outcome. -/
theorem c1_checkout_success_only_if_payment (body : CheckoutRequest) (table : List ProductN)
    (stock : Int → Nat) (payment : PaymentResult) (now : Nat)
    (hCid : truthyStr body.customerId = true)
    (hItems : body.items ≠ [])
    (hCust : (db.users.findUnique body.customerId).isSome = true)
    (hFound : ∀ item ∈ body.items, (db.productsN.findUnique table item.productId).isSome = true)
    (hAvail : ∀ item ∈ body.items, item.quantity ≤ stock item.productId) :
    ((api.checkout.POST body table stock payment now).success = true →
      payment.success = true) ∧
    (payment.success = false →
      (api.checkout.POST body table stock payment now).status = 402 ∧
      (api.checkout.POST body table stock payment now).success = false) := by
  obtain ⟨u, hu⟩ := Option.isSome_iff_exists.mp hCust
  obtain ⟨r, hr⟩ := checkoutValidateItems_ok table stock body.items hFound hAvail
  have hlen : ¬(body.items.length = 0) := fun h => hItems (List.length_eq_zero.mp h)
  have hkey : api.checkout.POST body table stock payment now =
      { status := 402, success := false, error := some "Payment failed", details := none } := by
    simp [api.checkout.POST, hCid, hlen, hu, hr, paymentService.processPayment,
      JsPromise.successField, JsPromise.errorField, truthyOptBool]
  rw [hkey]
  constructor
  · intro h
    simp at h
  · intro _
    exact ⟨rfl, rfl⟩

/-- Witness for C1: a valid one-item checkout by the first seeded user with a
declined payment outcome is answered 402. -/
theorem c1_witness :
    ({ success := false, error := some "Card declined" } : PaymentResult).success = false ∧
    (api.checkout.POST
      { customerId := "usr_1a2b3c", items := [{ productId := 1001, quantity := 1 }] }
      [{ id := 1001, sku := "WDG-PRO-001", name := "Pro Widget"
       , description := "Professional-grade widget for enterprise use"
       , price := (29999 : ℚ) / 100, inventory := 150 }]
      (fun _ => 150)
      { success := false, error := some "Card declined" } 0).status = 402 := by
  refine ⟨rfl, ?_⟩
  exact ((c1_checkout_success_only_if_payment
    { customerId := "usr_1a2b3c", items := [{ productId := 1001, quantity := 1 }] }
    [{ id := 1001, sku := "WDG-PRO-001", name := "Pro Widget"
     , description := "Professional-grade widget for enterprise use"
     , price := (29999 : ℚ) / 100, inventory := 150 }]
    (fun _ => 150)
    { success := false, error := some "Card declined" } 0
    (by decide) (by decide) (by decide) (by decide) (by decide)).2 rfl).1
